import Mathlib

/-!
Shallow embedding of the update-and-launch decision core of the
gemini-cli-updater repository: the `Config` persistent store
(src/lib/config.js) and the `Updater` class (lib/updater.js, appended in
src/scripts/uninstall.js), together with the `checkAndUpdate` run flow of
the CLI entry point.

Timestamps are epoch milliseconds modelled as `Nat`; JavaScript `null` is
`Option.none`; JavaScript falsiness of a numeric timestamp (`!lastCheck`)
treats both `null` and `0` as absent.  Fallible I/O (the registry fetch,
subprocess installs) is modelled by environment records carrying the
outcome of each external call, and every operation additionally returns
the list of observable external events (subprocess spawns, network
requests, config-file writes) it performs, in order.
-/

namespace GCU

/-- Prerelease identifier of a semantic version: numeric identifiers
compare numerically and are lower than alphanumeric ones, which compare
ASCII-lexically (SemVer 2.0.0 precedence, as implemented by the external
npm `semver` package used via `semver.lt`). -/
inductive PreId where
  | num (n : Nat)
  | str (s : String)
deriving DecidableEq, Repr

/-- Parsed semantic version `major.minor.patch[-prerelease]`. -/
structure Version where
  major : Nat
  minor : Nat
  patch : Nat
  prerelease : List PreId
deriving DecidableEq, Repr

/-- Three-way comparison on naturals, written out so that its
irreflexivity is immediate. -/
def cmpNat (a b : Nat) : Ordering :=
  if a < b then .lt else if b < a then .gt else .eq

/-- ASCII-lexicographic comparison of character lists. -/
def cmpCharList : List Char → List Char → Ordering
  | [], [] => .eq
  | [], _ :: _ => .lt
  | _ :: _, [] => .gt
  | a :: as, b :: bs =>
    match cmpNat a.toNat b.toNat with
    | .eq => cmpCharList as bs
    | o => o

/-- Comparison of single prerelease identifiers: numeric before
alphanumeric; numeric vs numeric numerically; alphanumeric vs
alphanumeric lexically (SemVer 2.0.0 rule 11.4). -/
def cmpPreId : PreId → PreId → Ordering
  | .num a, .num b => cmpNat a b
  | .num _, .str _ => .lt
  | .str _, .num _ => .gt
  | .str a, .str b => cmpCharList a.data b.data

/-- Pairwise comparison of two nonempty-context prerelease identifier
lists; a shorter list that is a prefix of the other is lower
(SemVer 2.0.0 rule 11.4.4). -/
def cmpPreList : List PreId → List PreId → Ordering
  | [], [] => .eq
  | [], _ :: _ => .lt
  | _ :: _, [] => .gt
  | a :: as, b :: bs =>
    match cmpPreId a b with
    | .eq => cmpPreList as bs
    | o => o

/-- Top-level prerelease comparison: a version without prerelease has
higher precedence than the same version with one (SemVer 2.0.0
rule 11.3); otherwise identifiers are compared pairwise. -/
def cmpPre (a b : List PreId) : Ordering :=
  match a, b with
  | [], [] => .eq
  | [], _ :: _ => .gt
  | _ :: _, [] => .lt
  | _ :: _, _ :: _ => cmpPreList a b

/-- Full semantic-version precedence: major, then minor, then patch
numerically, then prerelease. -/
def cmpVersion (a b : Version) : Ordering :=
  match cmpNat a.major b.major with
  | .eq =>
    match cmpNat a.minor b.minor with
    | .eq =>
      match cmpNat a.patch b.patch with
      | .eq => cmpPre a.prerelease b.prerelease
      | o => o
    | o => o
  | o => o

/-- Model of `semver.lt(current, latest)` from the npm `semver` package:
strictly-less under semantic-version precedence. -/
def semverLt (a b : Version) : Bool :=
  cmpVersion a b == Ordering.lt

/-- One entry of the persisted version history, as built by
`Config.addVersionHistory` (src/lib/config.js lines 89-94): the versions
are the `from`/`to` fields of the stored JSON object. -/
structure VersionEntry where
  fromVersion : Version
  toVersion : Version
  timestamp : Nat
  success : Bool
deriving DecidableEq, Repr

/-- The `settings` object of the config document
(src/lib/config.js lines 31-36). -/
structure Settings where
  updateCooldown : Nat
  maxVersionHistory : Nat
  enableLogging : Bool
  autoUpdate : Bool
deriving DecidableEq, Repr

/-- The full config document (src/lib/config.js `getDefaultConfig`
shape, lines 26-38). -/
structure ConfigDoc where
  lastUpdateCheck : Option Nat
  lastUpdateTime : Option Nat
  versionHistory : List VersionEntry
  settings : Settings
deriving DecidableEq, Repr

/-- Default settings (src/lib/config.js lines 31-36). -/
def defaultSettings : Settings :=
  { updateCooldown := 3600000
    maxVersionHistory := 10
    enableLogging := true
    autoUpdate := true }

/-- `Config.getDefaultConfig` (src/lib/config.js lines 26-38). -/
def getDefaultConfig : ConfigDoc :=
  { lastUpdateCheck := none
    lastUpdateTime := none
    versionHistory := []
    settings := defaultSettings }

/-- JavaScript `x || fallback` on a number: `0` is falsy. -/
def jsOrNat (n fallback : Nat) : Nat :=
  if n = 0 then fallback else n

/-- `Config.setLastUpdateCheck` (src/lib/config.js lines 65-69):
read-modify-write of the `lastUpdateCheck` field. -/
def setLastUpdateCheck (timestamp : Nat) (doc : ConfigDoc) : ConfigDoc :=
  { doc with lastUpdateCheck := some timestamp }

/-- `Config.setLastUpdateTime` (src/lib/config.js lines 76-80). -/
def setLastUpdateTime (timestamp : Nat) (doc : ConfigDoc) : ConfigDoc :=
  { doc with lastUpdateTime := some timestamp }

/-- `Config.addVersionHistory` (src/lib/config.js lines 87-106): push an
entry stamped `success: true`, then keep only the last
`settings.maxVersionHistory || 10` entries via `slice(-maxHistory)`. -/
def addVersionHistory (fromVersion toVersion : Version) (now : Nat)
    (doc : ConfigDoc) : ConfigDoc :=
  let versionEntry : VersionEntry :=
    { fromVersion := fromVersion
      toVersion := toVersion
      timestamp := now
      success := true }
  let history := doc.versionHistory ++ [versionEntry]
  let maxHistory := jsOrNat doc.settings.maxVersionHistory 10
  let history :=
    if history.length > maxHistory then
      history.drop (history.length - maxHistory)
    else history
  { doc with versionHistory := history }

/-- Observable external events performed by an operation, in order:
subprocess version query (`execSync gemini --version`), registry HTTP
fetch (`https.get .../latest`), package (re)install
(`npm install -g pkg[@pin]`, `pin = none` meaning install-latest), and a
write of the config file. -/
inductive Event where
  | versionQuery
  | registryFetch
  | installPkg (pin : Option Version)
  | configWrite (doc : ConfigDoc)
deriving DecidableEq, Repr

/-- Hard-coded `this.updateCooldown = 60 * 60 * 1000` set in the
`Updater` constructor (src/scripts/uninstall.js line 237).  Note the
`Updater` never consults `Config.getUpdateCooldown` /
`settings.updateCooldown`. -/
def updateCooldownConst : Nat := 3600000

/-- `Updater.isWithinCooldown` (src/scripts/uninstall.js lines 353-358):
`!lastCheck` short-circuits on `null` and on `0`; otherwise compares
`Date.now() - lastCheck < this.updateCooldown` (JavaScript subtraction,
hence over `Int`). -/
def isWithinCooldown (doc : ConfigDoc) (now : Nat) : Bool :=
  match doc.lastUpdateCheck with
  | none => false
  | some lastCheck =>
    if lastCheck = 0 then false
    else decide ((now : Int) - (lastCheck : Int) < (updateCooldownConst : Int))

/-- Outcomes of the two version resolvers for one check, plus the clock:
`getCurrentVersion` (src/scripts/uninstall.js lines 305-322) never
throws and yields `none` when the command fails or no `\d+.\d+.\d+`
match is found; `getLatestVersion` (lines 324-351) rejects with a
network, timeout or parse error message. -/
structure Env where
  now : Nat
  currentVersion : Option Version
  latestVersion : Except String Version
deriving Repr

/-- Result of `Updater.checkForUpdate`: the returned boolean, the config
document after the call, and the external events performed. -/
structure CheckResult where
  needsUpdate : Bool
  doc : ConfigDoc
  events : List Event
deriving DecidableEq, Repr

/-- `Updater.checkForUpdate` (src/scripts/uninstall.js lines 240-276).
Within the cooldown it returns `false` at once with no external effect.
Otherwise `Promise.all` issues both resolver calls; a rejection of
`getLatestVersion` is caught and yields `false` with the config
untouched.  A missing current version returns `true` early — before the
`setLastUpdateCheck` stamp on line 261.  Otherwise the check stamps
`lastUpdateCheck = Date.now()` and, when `semver.lt(current, latest)`,
also appends the version-history entry before returning `true`. -/
def checkForUpdate (env : Env) (doc : ConfigDoc) : CheckResult :=
  if isWithinCooldown doc env.now then
    { needsUpdate := false, doc := doc, events := [] }
  else
    let resolverEvents : List Event := [.versionQuery, .registryFetch]
    match env.latestVersion with
    | .error _ =>
      { needsUpdate := false, doc := doc, events := resolverEvents }
    | .ok latestVersion =>
      match env.currentVersion with
      | none =>
        { needsUpdate := true, doc := doc, events := resolverEvents }
      | some currentVersion =>
        let needsUpdate := semverLt currentVersion latestVersion
        let doc1 := setLastUpdateCheck env.now doc
        let events1 := resolverEvents ++ [.configWrite doc1]
        if needsUpdate then
          let doc2 := addVersionHistory currentVersion latestVersion env.now doc1
          { needsUpdate := true, doc := doc2, events := events1 ++ [.configWrite doc2] }
        else
          { needsUpdate := false, doc := doc1, events := events1 }

/-- Outcomes of the external calls made by `Updater.performUpdate`:
whether `execSync npm install -g pkg` succeeds, and what
`getCurrentVersion` reports afterwards for verification. -/
structure UpdateEnv where
  now : Nat
  installOk : Bool
  verifyVersion : Option Version
deriving Repr

instance {ε α : Type} [DecidableEq ε] [DecidableEq α] : DecidableEq (Except ε α) :=
  fun a b =>
    match a, b with
    | .ok x, .ok y =>
      if h : x = y then .isTrue (by rw [h]) else .isFalse (by simp [h])
    | .error x, .error y =>
      if h : x = y then .isTrue (by rw [h]) else .isFalse (by simp [h])
    | .ok _, .error _ => .isFalse (by simp)
    | .error _, .ok _ => .isFalse (by simp)

/-- Result of `performUpdate` / `forceUpdate` / `rollbackToPreviousVersion`:
an `Except` mirroring throw vs return, the config document after the
call, and the external events performed. -/
structure OpResult where
  result : Except String Bool
  doc : ConfigDoc
  events : List Event
deriving DecidableEq, Repr

/-- `Updater.performUpdate` (src/scripts/uninstall.js lines 278-303):
run the install; on subprocess failure the error propagates with no
config write.  On success stamp `lastUpdateTime = Date.now()`, then
re-query the current version; a missing version raises the
verification error (after the stamp). -/
def performUpdate (uenv : UpdateEnv) (doc : ConfigDoc) : OpResult :=
  if uenv.installOk then
    let doc1 := setLastUpdateTime uenv.now doc
    let events : List Event := [.installPkg none, .configWrite doc1, .versionQuery]
    match uenv.verifyVersion with
    | some _ => { result := .ok true, doc := doc1, events := events }
    | none => { result := .error "Update verification failed", doc := doc1, events := events }
  else
    { result := .error "install failed", doc := doc, events := [.installPkg none] }

/-- Events-and-state trace of the CLI run flow `checkAndUpdate`
(bin entry point, `GeminiUpdaterCLI.checkAndUpdate`): run
`checkForUpdate`; only when it returns `true` run `performUpdate`
(errors of which are caught by the CLI). -/
structure RunResult where
  doc : ConfigDoc
  events : List Event
deriving DecidableEq, Repr

/-- `GeminiUpdaterCLI.checkAndUpdate`: `checkForUpdate` then, if an
update is needed, `performUpdate`. -/
def checkAndUpdate (env : Env) (uenv : UpdateEnv) (doc : ConfigDoc) : RunResult :=
  let c := checkForUpdate env doc
  if c.needsUpdate then
    let u := performUpdate uenv c.doc
    { doc := u.doc, events := c.events ++ u.events }
  else
    { doc := c.doc, events := c.events }

/-- Error message thrown by `rollbackToPreviousVersion` when fewer than
two history entries exist (src/scripts/uninstall.js line 364) — the
spec's `NoRollbackTargetError`. -/
def noRollbackMsg : String := "No previous version available for rollback"

/-- `Updater.rollbackToPreviousVersion` (src/scripts/uninstall.js lines
360-381): requires at least two history entries, picks
`versionHistory[length - 2]` and reinstalls pinned to its `from` field;
a subprocess failure is logged and rethrown.  No config setter is ever
called. -/
def rollbackToPreviousVersion (installOk : Bool) (doc : ConfigDoc) : OpResult :=
  if h : doc.versionHistory.length < 2 then
    { result := .error noRollbackMsg, doc := doc, events := [] }
  else
    let previousVersion :=
      doc.versionHistory.get ⟨doc.versionHistory.length - 2, by omega⟩
    let events : List Event := [.installPkg (some previousVersion.fromVersion)]
    if installOk then
      { result := .ok true, doc := doc, events := events }
    else
      { result := .error "Rollback failed", doc := doc, events := events }

/-- `Updater.forceUpdate` (src/scripts/uninstall.js lines 383-387):
`setLastUpdateCheck(0)` then
`await checkForUpdate() && await performUpdate()`. -/
def forceUpdate (env : Env) (uenv : UpdateEnv) (doc : ConfigDoc) : OpResult :=
  let doc1 := setLastUpdateCheck 0 doc
  let c := checkForUpdate env doc1
  let events := Event.configWrite doc1 :: c.events
  if c.needsUpdate then
    let u := performUpdate uenv c.doc
    { result := u.result, doc := u.doc, events := events ++ u.events }
  else
    { result := .ok false, doc := c.doc, events := events }

/-- A config document as stored on disk: every top-level field may be
absent, in which case `readConfig`'s shallow merge
`{...defaults, ...JSON.parse(data)}` fills it from the defaults. -/
structure PartialConfig where
  lastUpdateCheck : Option (Option Nat)
  lastUpdateTime : Option (Option Nat)
  versionHistory : Option (List VersionEntry)
  settings : Option Settings
deriving DecidableEq, Repr

/-- State of the on-disk config file: missing, present but failing
`JSON.parse`, or present with parsed content. -/
inductive FileState where
  | absent
  | corrupt
  | stored (data : PartialConfig)
deriving DecidableEq, Repr

/-- Shallow merge `{...this.getDefaultConfig(), ...JSON.parse(data)}`
(src/lib/config.js line 44): a field present in the stored document
wins wholesale; a missing field comes from the defaults. -/
def mergeOverDefaults (p : PartialConfig) : ConfigDoc :=
  { lastUpdateCheck := p.lastUpdateCheck.getD getDefaultConfig.lastUpdateCheck
    lastUpdateTime := p.lastUpdateTime.getD getDefaultConfig.lastUpdateTime
    versionHistory := p.versionHistory.getD getDefaultConfig.versionHistory
    settings := p.settings.getD getDefaultConfig.settings }

/-- A full document as it is serialized to disk by `writeConfig`: every
field present. -/
def toPartial (d : ConfigDoc) : PartialConfig :=
  { lastUpdateCheck := some d.lastUpdateCheck
    lastUpdateTime := some d.lastUpdateTime
    versionHistory := some d.versionHistory
    settings := some d.settings }

/-- `Config.readConfig` (src/lib/config.js lines 40-50) together with
the file state after the call: it only reads (`readFileSync`), so the
file state is returned unchanged — on a missing or unparseable file it
returns the defaults without rewriting anything. -/
def readConfigFs : FileState → ConfigDoc × FileState
  | .stored p => (mergeOverDefaults p, .stored p)
  | .corrupt => (getDefaultConfig, .corrupt)
  | .absent => (getDefaultConfig, .absent)

/-- `Config.ensureConfigExists` (src/lib/config.js lines 12-24), run by
the constructor: writes the defaults only when the file does not exist;
an existing (even unparseable) file is left alone. -/
def ensureConfigExists : FileState → FileState
  | .absent => .stored (toPartial getDefaultConfig)
  | fs => fs

/-- `Config.importConfig` (src/lib/config.js lines 154-167): a
non-object argument returns `false` without writing; an object is
shallow-merged over the defaults and written verbatim — no
version-history truncation is applied. -/
def importConfig (configData : Option PartialConfig) (fs : FileState) :
    FileState × Bool :=
  match configData with
  | some p => (.stored (toPartial (mergeOverDefaults p)), true)
  | none => (fs, false)

/-! Helper lemmas shared by the claim theorems. -/

theorem cmpNat_self (a : Nat) : cmpNat a a = .eq := by
  simp [cmpNat]

theorem cmpCharList_self (l : List Char) : cmpCharList l l = .eq := by
  induction l with
  | nil => rfl
  | cons a as ih => simp [cmpCharList, cmpNat_self, ih]

theorem cmpPreId_self (i : PreId) : cmpPreId i i = .eq := by
  cases i <;> simp [cmpPreId, cmpNat_self, cmpCharList_self]

theorem cmpPreList_self (l : List PreId) : cmpPreList l l = .eq := by
  induction l with
  | nil => rfl
  | cons a as ih => simp [cmpPreList, cmpPreId_self, ih]

theorem cmpPre_self (l : List PreId) : cmpPre l l = .eq := by
  cases l with
  | nil => rfl
  | cons a as => simp [cmpPre, cmpPreList_self]

theorem semverLt_irrefl (v : Version) : semverLt v v = false := by
  simp only [semverLt, cmpVersion, cmpNat_self, cmpPre_self]
  rfl

theorem jsOrNat_pos (n f : Nat) (hf : 0 < f) : 0 < jsOrNat n f := by
  unfold jsOrNat
  split <;> omega

theorem addVersionHistory_length_le (fv tv : Version) (now : Nat) (doc : ConfigDoc) :
    (addVersionHistory fv tv now doc).versionHistory.length
      ≤ jsOrNat doc.settings.maxVersionHistory 10 := by
  have hm : 0 < jsOrNat doc.settings.maxVersionHistory 10 :=
    jsOrNat_pos _ _ (by omega)
  simp only [addVersionHistory]
  split
  · simp only [List.length_drop]
    omega
  · simp only [List.length_append, List.length_cons, List.length_nil] at *
    omega

theorem addVersionHistory_suffix (fv tv : Version) (now : Nat) (doc : ConfigDoc) :
    (addVersionHistory fv tv now doc).versionHistory
      <:+ doc.versionHistory ++ [⟨fv, tv, now, true⟩] := by
  simp only [addVersionHistory]
  split
  · exact List.drop_suffix _ _
  · exact List.suffix_refl _

theorem addVersionHistory_getLast (fv tv : Version) (now : Nat) (doc : ConfigDoc) :
    (addVersionHistory fv tv now doc).versionHistory.getLast?
      = some ⟨fv, tv, now, true⟩ := by
  have hm : 0 < jsOrNat doc.settings.maxVersionHistory 10 :=
    jsOrNat_pos _ _ (by omega)
  simp only [addVersionHistory]
  split
  case isTrue h =>
    rw [List.drop_append_of_le_length (by
      simp only [List.length_append, List.length_cons, List.length_nil] at h ⊢
      omega)]
    exact List.getLast?_concat _
  case isFalse h =>
    exact List.getLast?_concat _

theorem addVersionHistory_lastUpdateCheck (fv tv : Version) (now : Nat)
    (doc : ConfigDoc) :
    (addVersionHistory fv tv now doc).lastUpdateCheck = doc.lastUpdateCheck := rfl

theorem checkForUpdate_within (env : Env) (doc : ConfigDoc)
    (h : isWithinCooldown doc env.now = true) :
    checkForUpdate env doc = { needsUpdate := false, doc := doc, events := [] } := by
  simp [checkForUpdate, h]

theorem checkForUpdate_error (env : Env) (doc : ConfigDoc) (msg : String)
    (hg : isWithinCooldown doc env.now = false)
    (he : env.latestVersion = .error msg) :
    checkForUpdate env doc
      = { needsUpdate := false, doc := doc, events := [.versionQuery, .registryFetch] } := by
  simp [checkForUpdate, hg, he]

theorem checkForUpdate_missing (env : Env) (doc : ConfigDoc) (lv : Version)
    (hg : isWithinCooldown doc env.now = false)
    (hl : env.latestVersion = .ok lv) (hc : env.currentVersion = none) :
    checkForUpdate env doc
      = { needsUpdate := true, doc := doc, events := [.versionQuery, .registryFetch] } := by
  simp [checkForUpdate, hg, hl, hc]

theorem checkForUpdate_resolved (env : Env) (doc : ConfigDoc) (cv lv : Version)
    (hg : isWithinCooldown doc env.now = false)
    (hl : env.latestVersion = .ok lv) (hc : env.currentVersion = some cv) :
    checkForUpdate env doc
      = if semverLt cv lv then
          { needsUpdate := true
            doc := addVersionHistory cv lv env.now (setLastUpdateCheck env.now doc)
            events := [.versionQuery, .registryFetch,
              .configWrite (setLastUpdateCheck env.now doc),
              .configWrite (addVersionHistory cv lv env.now (setLastUpdateCheck env.now doc))] }
        else
          { needsUpdate := false
            doc := setLastUpdateCheck env.now doc
            events := [.versionQuery, .registryFetch,
              .configWrite (setLastUpdateCheck env.now doc)] } := by
  simp only [checkForUpdate, hg, hl, hc, Bool.false_eq_true, if_false]
  split <;> simp_all

theorem checkForUpdate_stamps (env : Env) (doc : ConfigDoc) (cv lv : Version)
    (hg : isWithinCooldown doc env.now = false)
    (hl : env.latestVersion = .ok lv) (hc : env.currentVersion = some cv) :
    (checkForUpdate env doc).doc.lastUpdateCheck = some env.now := by
  rw [checkForUpdate_resolved env doc cv lv hg hl hc]
  split <;> simp [addVersionHistory_lastUpdateCheck, setLastUpdateCheck]

theorem cooldown_stays_open (doc : ConfigDoc) (now now2 : Nat)
    (h : isWithinCooldown doc now = false) (hle : now ≤ now2) :
    isWithinCooldown doc now2 = false := by
  unfold isWithinCooldown at h ⊢
  cases hc : doc.lastUpdateCheck with
  | none => rfl
  | some t =>
    rw [hc] at h
    by_cases ht : t = 0
    · simp [ht]
    · simp only [ht, if_false, decide_eq_false_iff_not, not_lt] at h ⊢
      omega

theorem checkForUpdate_resolver_events (env : Env) (doc : ConfigDoc)
    (hg : isWithinCooldown doc env.now = false) :
    Event.versionQuery ∈ (checkForUpdate env doc).events
    ∧ Event.registryFetch ∈ (checkForUpdate env doc).events := by
  cases he : env.latestVersion with
  | error msg =>
    rw [checkForUpdate_error env doc msg hg he]
    exact ⟨by simp, by simp⟩
  | ok lv =>
    cases hc : env.currentVersion with
    | none =>
      rw [checkForUpdate_missing env doc lv hg he hc]
      exact ⟨by simp, by simp⟩
    | some cv =>
      rw [checkForUpdate_resolved env doc cv lv hg he hc]
      split <;> exact ⟨by simp, by simp⟩

/-! Claim theorems. -/

/-- Concrete config whose `settings.updateCooldown` is far larger than
the hard-coded one-hour constant; two hours elapsed since the last
check. -/
def C1doc : ConfigDoc :=
  { lastUpdateCheck := some 1
    lastUpdateTime := none
    versionHistory := []
    settings :=
      { updateCooldown := 10000000000
        maxVersionHistory := 10
        enableLogging := true
        autoUpdate := true } }

/-- Environment two hours after the last check, with both resolvers
succeeding and an update available. -/
def C1env : Env :=
  { now := 7200001
    currentVersion := some ⟨1, 0, 0, []⟩
    latestVersion := .ok ⟨2, 0, 0, []⟩ }

/-- C1 (counterexample): with `settings.updateCooldown = 10^10` and only
two hours elapsed since a non-null `lastUpdateCheck`, `now - lastUpdateCheck`
is below the configured cooldown, yet `checkForUpdate` does not return
false: it performs the registry fetch and the subprocess query and
writes the config — the code gates on its hard-coded one-hour
`this.updateCooldown`, never on `settings.updateCooldown`. -/
theorem C1_counterexample :
    C1doc.lastUpdateCheck = some 1
    ∧ ((C1env.now : Int) - (1 : Int) < (C1doc.settings.updateCooldown : Int))
    ∧ (checkForUpdate C1env C1doc).needsUpdate = true
    ∧ Event.registryFetch ∈ (checkForUpdate C1env C1doc).events
    ∧ Event.versionQuery ∈ (checkForUpdate C1env C1doc).events
    ∧ (checkForUpdate C1env C1doc).doc ≠ C1doc := by
  decide

/-- C1 (amended): for every config state with a non-null, non-zero
`lastUpdateCheck`, if `now - lastUpdateCheck` is below the Updater's
hard-coded one-hour cooldown constant (`settings.updateCooldown` is
ignored), then `checkForUpdate` returns false immediately, performing no
network call, no subprocess call and no config write. -/
theorem C1_cooldown_skip (env : Env) (doc : ConfigDoc) (t : Nat)
    (hlast : doc.lastUpdateCheck = some t) (ht : t ≠ 0)
    (hcool : (env.now : Int) - (t : Int) < (updateCooldownConst : Int)) :
    checkForUpdate env doc = { needsUpdate := false, doc := doc, events := [] } := by
  have hw : isWithinCooldown doc env.now = true := by
    unfold isWithinCooldown
    rw [hlast]
    simp [ht, hcool]
  exact checkForUpdate_within env doc hw

/-- C1 witness: a check four milliseconds after the last one is skipped
outright. -/
theorem C1_cooldown_skip_witness :
    checkForUpdate ⟨9, some ⟨1, 0, 0, []⟩, .ok ⟨2, 0, 0, []⟩⟩
        ⟨some 5, none, [], defaultSettings⟩
      = { needsUpdate := false
          doc := ⟨some 5, none, [], defaultSettings⟩
          events := [] } :=
  C1_cooldown_skip _ _ 5 rfl (by decide) (by decide)

/-- Environment for the missing-current-version check: cooldown gate
open (default config has `lastUpdateCheck = null`), registry resolves,
wrapped tool absent. -/
def C2env : Env := ⟨42, none, .ok ⟨1, 2, 3, []⟩⟩

/-- C2 (counterexample): a check that passes the cooldown gate and whose
resolvers both complete (registry ok, current version absent) decides
"update needed" but returns early, leaving `lastUpdateCheck` untouched —
the stamp on line 261 is never reached in the absent-current-version
path, contradicting the claim's "including the case where the current
version is absent". -/
theorem C2_counterexample :
    isWithinCooldown getDefaultConfig C2env.now = false
    ∧ C2env.latestVersion = .ok ⟨1, 2, 3, []⟩
    ∧ (checkForUpdate C2env getDefaultConfig).needsUpdate = true
    ∧ (checkForUpdate C2env getDefaultConfig).doc.lastUpdateCheck = none
    ∧ (checkForUpdate C2env getDefaultConfig).doc.lastUpdateCheck ≠ some C2env.now := by
  decide

/-- C2 (amended): every check that passes the cooldown gate and resolves
both versions without failure with a KNOWN current version stamps
`lastUpdateCheck := now` regardless of outcome; across two such
successive checks run at non-decreasing clock times the stored
`lastUpdateCheck` is non-decreasing.  (When the current version is
absent, the check returns "update needed" without stamping.) -/
theorem C2_stamp (env env2 : Env) (doc : ConfigDoc) (cv cv2 lv lv2 : Version)
    (h1 : isWithinCooldown doc env.now = false)
    (h2 : env.currentVersion = some cv) (h3 : env.latestVersion = .ok lv)
    (g1 : isWithinCooldown (checkForUpdate env doc).doc env2.now = false)
    (g2 : env2.currentVersion = some cv2) (g3 : env2.latestVersion = .ok lv2)
    (hnow : env.now ≤ env2.now) :
    (checkForUpdate env doc).doc.lastUpdateCheck = some env.now
    ∧ (checkForUpdate env2 ((checkForUpdate env doc).doc)).doc.lastUpdateCheck
        = some env2.now
    ∧ (∀ a b, (checkForUpdate env doc).doc.lastUpdateCheck = some a →
        (checkForUpdate env2 ((checkForUpdate env doc).doc)).doc.lastUpdateCheck
          = some b → a ≤ b) := by
  have hs1 := checkForUpdate_stamps env doc cv lv h1 h3 h2
  have hs2 := checkForUpdate_stamps env2 ((checkForUpdate env doc).doc) cv2 lv2 g1 g3 g2
  refine ⟨hs1, hs2, ?_⟩
  intro a b ha hb
  rw [hs1] at ha
  rw [hs2] at hb
  cases ha
  cases hb
  exact hnow

/-- C2 witness: a first check at time 10 stamps 10; a second one at time
4000000 (past the hard-coded cooldown) stamps 4000000. -/
theorem C2_stamp_witness :
    (checkForUpdate ⟨10, some ⟨1, 0, 0, []⟩, .ok ⟨1, 0, 0, []⟩⟩
        getDefaultConfig).doc.lastUpdateCheck = some 10
    ∧ (checkForUpdate ⟨4000000, some ⟨1, 0, 0, []⟩, .ok ⟨1, 0, 0, []⟩⟩
        ((checkForUpdate ⟨10, some ⟨1, 0, 0, []⟩, .ok ⟨1, 0, 0, []⟩⟩
          getDefaultConfig).doc)).doc.lastUpdateCheck = some 4000000 :=
  ⟨(C2_stamp ⟨10, some ⟨1, 0, 0, []⟩, .ok ⟨1, 0, 0, []⟩⟩
      ⟨4000000, some ⟨1, 0, 0, []⟩, .ok ⟨1, 0, 0, []⟩⟩ getDefaultConfig
      ⟨1, 0, 0, []⟩ ⟨1, 0, 0, []⟩ ⟨1, 0, 0, []⟩ ⟨1, 0, 0, []⟩
      (by decide) rfl rfl (by decide) rfl rfl (by decide)).1,
   (C2_stamp ⟨10, some ⟨1, 0, 0, []⟩, .ok ⟨1, 0, 0, []⟩⟩
      ⟨4000000, some ⟨1, 0, 0, []⟩, .ok ⟨1, 0, 0, []⟩⟩ getDefaultConfig
      ⟨1, 0, 0, []⟩ ⟨1, 0, 0, []⟩ ⟨1, 0, 0, []⟩ ⟨1, 0, 0, []⟩
      (by decide) rfl rfl (by decide) rfl rfl (by decide)).2.1⟩

/-- C3: a check that passes the cooldown gate and hits a resolver
failure (rejection of `getLatestVersion`: network error, timeout or
registry parse error) returns false rather than raising, performs no
config write, and leaves the document — in particular `lastUpdateCheck`
— unchanged; hence at every later instant the cooldown gate is still
open and a retry is not blocked. -/
theorem C3_resolver_failure (env : Env) (doc : ConfigDoc) (msg : String)
    (hg : isWithinCooldown doc env.now = false)
    (he : env.latestVersion = .error msg) :
    checkForUpdate env doc
      = { needsUpdate := false, doc := doc, events := [.versionQuery, .registryFetch] }
    ∧ (∀ d, Event.configWrite d ∉ (checkForUpdate env doc).events)
    ∧ (∀ now2, env.now ≤ now2 → isWithinCooldown doc now2 = false) := by
  have h := checkForUpdate_error env doc msg hg he
  refine ⟨h, ?_, ?_⟩
  · intro d
    rw [h]
    simp
  · intro now2 hle
    exact cooldown_stays_open doc env.now now2 hg hle

/-- C3 witness: a failed registry fetch at time 5 returns false with the
default config untouched, and the gate is still open at time 6. -/
theorem C3_resolver_failure_witness :
    checkForUpdate ⟨5, none, .error "ETIMEDOUT"⟩ getDefaultConfig
      = { needsUpdate := false
          doc := getDefaultConfig
          events := [.versionQuery, .registryFetch] }
    ∧ isWithinCooldown getDefaultConfig 6 = false :=
  ⟨(C3_resolver_failure ⟨5, none, .error "ETIMEDOUT"⟩ getDefaultConfig
      "ETIMEDOUT" (by decide) rfl).1,
   (C3_resolver_failure ⟨5, none, .error "ETIMEDOUT"⟩ getDefaultConfig
      "ETIMEDOUT" (by decide) rfl).2.2 6 (by decide)⟩

/-- An eleven-entry version history, longer than the default cap of 10. -/
def C4partial : PartialConfig :=
  { lastUpdateCheck := none
    lastUpdateTime := none
    versionHistory := some (List.replicate 11 ⟨⟨1, 0, 0, []⟩, ⟨1, 0, 1, []⟩, 0, true⟩)
    settings := none }

/-- C4 (counterexample): `importConfig` is a config-writing operation
that applies no truncation: importing a document with eleven history
entries (and default settings, so `maxVersionHistory = 10`) writes a
document whose `versionHistory.length` exceeds
`settings.maxVersionHistory`, refuting the claimed invariant for "every
operation that writes the config document". -/
theorem C4_counterexample :
    (importConfig (some C4partial) FileState.absent).1
      = FileState.stored (toPartial (mergeOverDefaults C4partial))
    ∧ (importConfig (some C4partial) FileState.absent).2 = true
    ∧ (mergeOverDefaults C4partial).versionHistory.length
        > (mergeOverDefaults C4partial).settings.maxVersionHistory := by
  decide

/-- C4 (amended): `addVersionHistory` itself maintains the cap: after it
runs, `versionHistory.length ≤ settings.maxVersionHistory` (with 10
substituted when that setting is 0), the resulting history is a suffix
of the old history extended by the new entry (oldest entries dropped
first, tail kept), and the new entry — stamped `success := true` — is
its last element.  Other writers (`importConfig`) do not enforce the
cap. -/
theorem C4_history_cap (fv tv : Version) (now : Nat) (doc : ConfigDoc) :
    ((addVersionHistory fv tv now doc).versionHistory.length
        ≤ jsOrNat doc.settings.maxVersionHistory 10)
    ∧ (addVersionHistory fv tv now doc).versionHistory
        <:+ doc.versionHistory ++ [⟨fv, tv, now, true⟩]
    ∧ (addVersionHistory fv tv now doc).versionHistory.getLast?
        = some ⟨fv, tv, now, true⟩ :=
  ⟨addVersionHistory_length_le fv tv now doc,
   addVersionHistory_suffix fv tv now doc,
   addVersionHistory_getLast fv tv now doc⟩

/-- A config document with exactly two history entries:
1.0.0 → 1.1.0 then 1.1.0 → 1.2.0. -/
def C5doc : ConfigDoc :=
  { lastUpdateCheck := none
    lastUpdateTime := none
    versionHistory :=
      [⟨⟨1, 0, 0, []⟩, ⟨1, 1, 0, []⟩, 1, true⟩,
       ⟨⟨1, 1, 0, []⟩, ⟨1, 2, 0, []⟩, 2, true⟩]
    settings := defaultSettings }

/-- C5: `rollbackToPreviousVersion` fails with the no-rollback-target
error whenever the history has fewer than two entries; with at least two
entries it reinstalls the package pinned exactly to the `from` field of
the second-to-last entry (and reports success when the install subprocess
succeeds). -/
theorem C5_rollback (installOk : Bool) (doc : ConfigDoc) :
    (doc.versionHistory.length < 2 →
      rollbackToPreviousVersion installOk doc
        = { result := .error noRollbackMsg, doc := doc, events := [] })
    ∧ (2 ≤ doc.versionHistory.length →
        ∃ prev, doc.versionHistory.get? (doc.versionHistory.length - 2) = some prev
          ∧ (rollbackToPreviousVersion installOk doc).events
              = [.installPkg (some prev.fromVersion)]
          ∧ (installOk = true →
              (rollbackToPreviousVersion installOk doc).result = .ok true)) := by
  constructor
  · intro hlt
    simp [rollbackToPreviousVersion, hlt]
  · intro h2
    have hlt : ¬ doc.versionHistory.length < 2 := by omega
    refine ⟨doc.versionHistory.get ⟨doc.versionHistory.length - 2, by omega⟩,
      List.get?_eq_get _, ?_, ?_⟩
    · cases installOk <;> simp [rollbackToPreviousVersion, hlt]
    · intro hok
      subst hok
      simp [rollbackToPreviousVersion, hlt]

/-- C5 witness: on the empty-history default config the rollback fails
with the no-rollback-target error, and on the two-entry `C5doc` it
reinstalls pinned to 1.0.0 — the `from` field of the second-to-last
entry (the first of the two) — and succeeds. -/
theorem C5_rollback_witness :
    rollbackToPreviousVersion true getDefaultConfig
      = { result := .error noRollbackMsg, doc := getDefaultConfig, events := [] }
    ∧ (rollbackToPreviousVersion true C5doc).events
        = [Event.installPkg (some ⟨1, 0, 0, []⟩)]
    ∧ (rollbackToPreviousVersion true C5doc).result = .ok true := by
  refine ⟨(C5_rollback true getDefaultConfig).1 (by decide), ?_⟩
  obtain ⟨prev, hget, hev, hres⟩ := (C5_rollback true C5doc).2 (by decide)
  have hp : prev = ⟨⟨1, 0, 0, []⟩, ⟨1, 1, 0, []⟩, 1, true⟩ := by
    have hgot : C5doc.versionHistory.get? (C5doc.versionHistory.length - 2)
        = some ⟨⟨1, 0, 0, []⟩, ⟨1, 1, 0, []⟩, 1, true⟩ := by decide
    rw [hgot] at hget
    exact (Option.some_inj.mp hget).symm
  rw [hp] at hev
  exact ⟨hev, hres rfl⟩

/-- C6: `forceUpdate` writes `lastUpdateCheck := 0` first, and since `0`
is falsy for `isWithinCooldown`, the subsequent `checkForUpdate` always
passes the cooldown gate: on every config state and every environment
the forced run performs both the registry fetch and the subprocess
version query. -/
theorem C6_force_bypass (env : Env) (uenv : UpdateEnv) (doc : ConfigDoc) :
    isWithinCooldown (setLastUpdateCheck 0 doc) env.now = false
    ∧ Event.configWrite (setLastUpdateCheck 0 doc) ∈ (forceUpdate env uenv doc).events
    ∧ Event.versionQuery ∈ (forceUpdate env uenv doc).events
    ∧ Event.registryFetch ∈ (forceUpdate env uenv doc).events := by
  have hz : isWithinCooldown (setLastUpdateCheck 0 doc) env.now = false := by
    simp [isWithinCooldown, setLastUpdateCheck]
  have hev := checkForUpdate_resolver_events env (setLastUpdateCheck 0 doc) hz
  refine ⟨hz, ?_, ?_, ?_⟩ <;>
    · simp only [forceUpdate]
      split <;> simp only [List.mem_cons, List.mem_append] <;> tauto

/-- C7: with both versions resolved, `checkForUpdate` decides "update
needed" exactly when `semver.lt current latest`; the model of semver
precedence orders `1.2.3 < 1.10.0` and `2.0.0-beta < 2.0.0`, and equal
versions never need an update. -/
theorem C7_semver_decision (env : Env) (doc : ConfigDoc) (cv lv : Version)
    (hg : isWithinCooldown doc env.now = false)
    (hc : env.currentVersion = some cv) (hl : env.latestVersion = .ok lv) :
    ((checkForUpdate env doc).needsUpdate = semverLt cv lv)
    ∧ semverLt ⟨1, 2, 3, []⟩ ⟨1, 10, 0, []⟩ = true
    ∧ semverLt ⟨2, 0, 0, [.str "beta"]⟩ ⟨2, 0, 0, []⟩ = true
    ∧ (∀ v : Version, semverLt v v = false) := by
  refine ⟨?_, by decide, by decide, semverLt_irrefl⟩
  rw [checkForUpdate_resolved env doc cv lv hg hl hc]
  cases h : semverLt cv lv <;> simp [h]

/-- C7 witness: current 1.2.3 against latest 1.10.0 on the default
config decides "update needed". -/
theorem C7_semver_decision_witness :
    (checkForUpdate ⟨7, some ⟨1, 2, 3, []⟩, .ok ⟨1, 10, 0, []⟩⟩
        getDefaultConfig).needsUpdate
      = semverLt ⟨1, 2, 3, []⟩ ⟨1, 10, 0, []⟩ :=
  (C7_semver_decision ⟨7, some ⟨1, 2, 3, []⟩, .ok ⟨1, 10, 0, []⟩⟩
    getDefaultConfig ⟨1, 2, 3, []⟩ ⟨1, 10, 0, []⟩ (by decide) rfl rfl).1

/-- C8: whenever a check with a known current version decides an update
is needed, the version-history entry `(from = current, to = latest)` —
already stamped `success := true` — is written during `checkForUpdate`,
which performs no install; the run flow then appends the install
events strictly after all check events, so the history write precedes
any install step. -/
theorem C8_history_before_install (env : Env) (uenv : UpdateEnv) (doc : ConfigDoc)
    (cv lv : Version)
    (hg : isWithinCooldown doc env.now = false)
    (hc : env.currentVersion = some cv) (hl : env.latestVersion = .ok lv)
    (hlt : semverLt cv lv = true) :
    (∃ d : ConfigDoc,
      Event.configWrite d ∈ (checkForUpdate env doc).events
      ∧ d.versionHistory.getLast? = some ⟨cv, lv, env.now, true⟩)
    ∧ (∀ pin, Event.installPkg pin ∉ (checkForUpdate env doc).events)
    ∧ (checkAndUpdate env uenv doc).events
        = (checkForUpdate env doc).events
          ++ (performUpdate uenv (checkForUpdate env doc).doc).events := by
  have hr := checkForUpdate_resolved env doc cv lv hg hl hc
  rw [hlt] at hr
  simp only [if_true] at hr
  refine ⟨⟨addVersionHistory cv lv env.now (setLastUpdateCheck env.now doc), ?_, ?_⟩, ?_, ?_⟩
  · rw [hr]
    simp
  · exact addVersionHistory_getLast cv lv env.now (setLastUpdateCheck env.now doc)
  · intro pin
    rw [hr]
    simp
  · have hn : (checkForUpdate env doc).needsUpdate = true := by rw [hr]
    simp only [checkAndUpdate, hn, if_true]

/-- C8 witness: a concrete needed update (1.0.0 → 2.0.0) runs the check
events first and the install events after them. -/
theorem C8_history_before_install_witness :
    (checkAndUpdate ⟨9, some ⟨1, 0, 0, []⟩, .ok ⟨2, 0, 0, []⟩⟩
        ⟨10, true, some ⟨2, 0, 0, []⟩⟩ getDefaultConfig).events
      = (checkForUpdate ⟨9, some ⟨1, 0, 0, []⟩, .ok ⟨2, 0, 0, []⟩⟩
          getDefaultConfig).events
        ++ (performUpdate ⟨10, true, some ⟨2, 0, 0, []⟩⟩
            (checkForUpdate ⟨9, some ⟨1, 0, 0, []⟩, .ok ⟨2, 0, 0, []⟩⟩
              getDefaultConfig).doc).events :=
  (C8_history_before_install ⟨9, some ⟨1, 0, 0, []⟩, .ok ⟨2, 0, 0, []⟩⟩
    ⟨10, true, some ⟨2, 0, 0, []⟩⟩ getDefaultConfig ⟨1, 0, 0, []⟩ ⟨2, 0, 0, []⟩
    (by decide) rfl rfl (by decide)).2.2

/-- C9 (counterexample): reading an unparseable config file returns the
defaults but leaves the file exactly as it was — corrupt, not rewritten
with the defaults — refuting "persists them (the file is rewritten)";
the same holds for a file that goes missing after construction. -/
theorem C9_counterexample :
    readConfigFs FileState.corrupt = (getDefaultConfig, FileState.corrupt)
    ∧ FileState.corrupt ≠ FileState.stored (toPartial getDefaultConfig)
    ∧ readConfigFs FileState.absent = (getDefaultConfig, FileState.absent) := by
  decide

/-- C9 (amended): the read operation never fails (it is a total
function): it returns the stored document shallow-merged over the
defaults with missing fields filled in, and on parse error or missing
file it returns the defaults — without rewriting the file; the file is
created with the defaults only by `ensureConfigExists` (run at `Config`
construction) and only when missing. -/
theorem C9_read_never_fails (fs : FileState) (p : PartialConfig) :
    ((readConfigFs fs).2 = fs)
    ∧ ((readConfigFs (FileState.stored p)).1 = mergeOverDefaults p)
    ∧ (p.versionHistory = none → (mergeOverDefaults p).versionHistory = [])
    ∧ (∀ h, p.versionHistory = some h → (mergeOverDefaults p).versionHistory = h)
    ∧ (p.lastUpdateCheck = none → (mergeOverDefaults p).lastUpdateCheck = none)
    ∧ (∀ t, p.lastUpdateCheck = some t → (mergeOverDefaults p).lastUpdateCheck = t)
    ∧ ((readConfigFs FileState.corrupt).1 = getDefaultConfig)
    ∧ ((readConfigFs FileState.absent).1 = getDefaultConfig)
    ∧ (ensureConfigExists FileState.absent = FileState.stored (toPartial getDefaultConfig))
    ∧ (ensureConfigExists FileState.corrupt = FileState.corrupt) := by
  refine ⟨?_, rfl, ?_, ?_, ?_, ?_, rfl, rfl, rfl, rfl⟩
  · cases fs <;> rfl
  · intro h
    simp [mergeOverDefaults, h, getDefaultConfig]
  · intro h hh
    simp [mergeOverDefaults, hh]
  · intro h
    simp [mergeOverDefaults, h, getDefaultConfig]
  · intro t ht
    simp [mergeOverDefaults, ht]

/-- C9 witness: a stored document with every field missing reads back as
the defaults, with the empty history filled in. -/
theorem C9_read_never_fails_witness :
    (readConfigFs (FileState.stored ⟨none, none, none, none⟩)).1
      = mergeOverDefaults ⟨none, none, none, none⟩
    ∧ (mergeOverDefaults ⟨none, none, none, none⟩).versionHistory = []
    ∧ (mergeOverDefaults ⟨none, none, none, none⟩).lastUpdateCheck = none :=
  ⟨(C9_read_never_fails (FileState.stored ⟨none, none, none, none⟩)
      ⟨none, none, none, none⟩).2.1,
   (C9_read_never_fails (FileState.stored ⟨none, none, none, none⟩)
      ⟨none, none, none, none⟩).2.2.1 rfl,
   (C9_read_never_fails (FileState.stored ⟨none, none, none, none⟩)
      ⟨none, none, none, none⟩).2.2.2.2.1 rfl⟩

/-- C10: `rollbackToPreviousVersion` never modifies the config document:
whether it fails for lack of a target, succeeds, or fails during the
install, the resulting document is the input document and no
config-write event is performed — it appends no history entry and
touches neither `lastUpdateCheck` nor `lastUpdateTime`. -/
theorem C10_rollback_frame (installOk : Bool) (doc : ConfigDoc) :
    (rollbackToPreviousVersion installOk doc).doc = doc
    ∧ (∀ d, Event.configWrite d ∉ (rollbackToPreviousVersion installOk doc).events)
    ∧ (rollbackToPreviousVersion installOk doc).doc.lastUpdateCheck = doc.lastUpdateCheck
    ∧ (rollbackToPreviousVersion installOk doc).doc.lastUpdateTime = doc.lastUpdateTime
    ∧ (rollbackToPreviousVersion installOk doc).doc.versionHistory = doc.versionHistory := by
  have hdoc : (rollbackToPreviousVersion installOk doc).doc = doc := by
    unfold rollbackToPreviousVersion
    split
    · rfl
    · cases installOk <;> rfl
  refine ⟨hdoc, ?_, by rw [hdoc], by rw [hdoc], by rw [hdoc]⟩
  intro d
  unfold rollbackToPreviousVersion
  split
  · simp
  · cases installOk <;> simp

/-- C10 witness: on the two-entry document the rollback leaves the
document untouched. -/
theorem C10_rollback_frame_witness :
    (rollbackToPreviousVersion true C5doc).doc = C5doc :=
  (C10_rollback_frame true C5doc).1

end GCU
